import Mathlib

/-!
Verification of the authentication / authorization core of the
`internet-banking` backend against its natural-language specification.

Shallow embedding:

* JS strings are modelled as `List Char`; possibly-`undefined` request
  fields as `Option (List Char)`; image buffers as `Option (List Nat)`.
* The validation regexes of `customerRegister`
  (`src/api/controllers/auth.controller.js`) carry the `gm` flags and are
  anchored with `^ … $`, so with the `m` flag a value matches exactly when
  one of its line-terminator-separated segments (ECMA-262 LineTerminators:
  LF, CR, U+2028, U+2029) matches the anchored pattern; each regex is
  embedded as an executable per-line matcher.
* Sequelize stores are modelled as in-memory lists of records; `findOne`
  is `List.find?` over the translated `where` clause.
* Express middleware chains (`authorize` then `restrictTo`) are modelled
  as functions returning `Except AppError α`, composed with `bind`.
-/

namespace Bank

/-- Errors produced by the controllers: `new AppError(message, statusCode)`. -/
structure AppError where
  message : List Char
  statusCode : Nat
deriving DecidableEq, Repr

/-- Account status enumeration, the closed set of the Status State Machine. -/
inductive STATUS where
  | active
  | inactive
  | blocked
  | deleted
deriving DecidableEq, Repr

/-- Modelled from the spec: the `STATUS` lookup object of
`src/api/utils/statusEnum.js`, which is not under `src/`; the spec fixes the
closed set `{active, inactive, blocked, deleted}` (section 4.6), and
`updateStaffStatus` evaluates `STATUS[status]`, which is `undefined` (falsy)
for any key outside the set. -/
def STATUS.lookup (s : List Char) : Option STATUS :=
  if s = "active".toList then some .active
  else if s = "inactive".toList then some .inactive
  else if s = "blocked".toList then some .blocked
  else if s = "deleted".toList then some .deleted
  else none

/-! ## Regex matchers of `customerRegister`

`regexPwd = /^(?=.*[\d])(?=.*[A-Z])(?=.*[a-z])(?=.*[!@#$%^&*])[\w!@#$%^&*]{8,}$/gm`
`regexDoB = regexRegDate = /^\d{4}[/\x2d]\d{2}[/\x2d]\d{2}$/gm`
`regexIdentNum = /^[0-9]{9}$|^[0-9]{12}$/gm`

With the `m` flag, `^`/`$` anchor at every JS LineTerminator (ECMA-262: LF,
CR, U+2028, U+2029), and none of the patterns can match across a line
terminator (`.` and every character class exclude them), so
`regex.exec(s) !== null` holds exactly when some line-terminator-separated
segment of `s` matches the anchored pattern. -/

/-- A JS LineTerminator (ECMA-262): LF, CR, LINE SEPARATOR, PARAGRAPH
SEPARATOR. The `m` flag anchors `^` after, and `$` before, each of them. -/
def isJsLineTerminator (c : Char) : Bool :=
  c == '\n' || c == '\r' || c == '\u2028' || c == '\u2029'

/-- The lines of a JS string as seen by the `m` regex flag: the segments
between line terminators, each terminator read individually (so a CRLF pair
delimits an empty segment between its two characters, matching the
per-character anchor rule). -/
def jsLines : List Char → List (List Char)
  | [] => [[]]
  | c :: cs =>
    match jsLines cs with
    | [] => [[]]
    | l :: ls =>
      if isJsLineTerminator c then [] :: l :: ls
      else (c :: l) :: ls

/-- The fixed punctuation set `[!@#$%^&*]` of the password regex. -/
def pwdSymbols : List Char := ['!', '@', '#', '$', '%', '^', '&', '*']

def isPwdSymbol (c : Char) : Bool := pwdSymbols.contains c

/-- JS regex `\w`: ASCII letters, digits, and underscore. -/
def isWordChar (c : Char) : Bool := c.isAlpha || c.isDigit || c == '_'

/-- One line matching `^(?=.*[\d])(?=.*[A-Z])(?=.*[a-z])(?=.*[!@#$%^&*])[\w!@#$%^&*]{8,}$`. -/
def linePwdOk (l : List Char) : Bool :=
  l.any Char.isDigit && l.any Char.isUpper && l.any Char.isLower &&
  l.any isPwdSymbol && l.all (fun c => isWordChar c || isPwdSymbol c) &&
  decide (8 ≤ l.length)

/-- `regexPwd.exec(s) !== null`. -/
def regexPwdMatch (s : List Char) : Bool := (jsLines s).any linePwdOk

/-- A separator of the date pattern, the character class `[/\x2d]`. -/
def isDateSep (c : Char) : Bool := c == '/' || c == '-'

/-- One line matching `^\d{4}[/\x2d]\d{2}[/\x2d]\d{2}$`: note each `[/\x2d]` is an
independent character class, so the two separators need not agree. -/
def lineDateOk (l : List Char) : Bool :=
  match l with
  | [y1, y2, y3, y4, s1, m1, m2, s2, d1, d2] =>
    y1.isDigit && y2.isDigit && y3.isDigit && y4.isDigit && isDateSep s1 &&
    m1.isDigit && m2.isDigit && isDateSep s2 && d1.isDigit && d2.isDigit
  | _ => false

/-- `regexDoB.exec(s) !== null` (also `regexRegDate`, the same pattern). -/
def regexDateMatch (s : List Char) : Bool := (jsLines s).any lineDateOk

/-- One line matching `^[0-9]{9}$|^[0-9]{12}$`. -/
def lineIdentOk (l : List Char) : Bool :=
  (decide (l.length = 9) || decide (l.length = 12)) && l.all Char.isDigit

/-- `regexIdentNum.exec(s) !== null`. -/
def regexIdentMatch (s : List Char) : Bool := (jsLines s).any lineIdentOk

/-- JS string coercion applied by `RegExp.exec` to a missing field:
`exec(undefined)` operates on the string `"undefined"`. -/
def jsOptStr : Option (List Char) → List Char
  | none => "undefined".toList
  | some s => s

/-- JS falsiness of a possibly-missing string: `undefined` and `''` are falsy. -/
def strFalsy : Option (List Char) → Bool
  | none => true
  | some l => l.isEmpty

/-! ## Registration pipeline (`customerRegister`) -/

/-- The request body reaching `customerRegister`; image buffers (set by the
`compressIdentityImages` middleware) are bytes, and a `Buffer` object is
always truthy, so only a missing buffer is falsy. -/
structure RegisterBody where
  email : Option (List Char)
  username : Option (List Char)
  password : Option (List Char)
  name : Option (List Char)
  dateOfBirth : Option (List Char)
  phoneNumber : Option (List Char)
  address : Option (List Char)
  identityNumber : Option (List Char)
  registrationDate : Option (List Char)
  frontImage : Option (List Nat)
  backImage : Option (List Nat)
deriving Repr

def missingImagesError : AppError :=
  ⟨"Please provide front and back images!".toList, 400⟩

/-- `compressIdentityImages` (`auth.controller.js` lines 40–57): rejects the
request when either uploaded file is missing, else writes the normalized JPEG
re-encodings into the body (the `sharp` quality-80 re-encoding is the opaque
parameter `jpeg80`). In the deployed chain this middleware runs before
`customerRegister`; the route wiring for customer registration is not under
`src/`. -/
def compressIdentityImages (jpeg80 : List Nat → List Nat)
    (frontFile backFile : Option (List Nat)) (b : RegisterBody) :
    Except AppError RegisterBody :=
  match frontFile, backFile with
  | some f, some bk =>
    .ok { b with frontImage := some (jpeg80 f), backImage := some (jpeg80 bk) }
  | _, _ => .error missingImagesError

def weakPasswordError : AppError :=
  ⟨("Password must be minimum eight characters, at least one uppercase " ++
    "letter, one lowercase letter, one number and one special character.").toList, 400⟩

def badDateOfBirthError : AppError := ⟨"Date of birth is invalid".toList, 400⟩

def incompleteIdentityError : AppError := ⟨"Please provide a full identity.".toList, 400⟩

def badIdentityNumberError : AppError :=
  ⟨"Identity number must be 9 or 12 characters in length.".toList, 400⟩

def badRegistrationDateError : AppError :=
  ⟨"Date of registration is invalid".toList, 400⟩

/-- The structural validation chain of `customerRegister`
(`auth.controller.js` lines 187–221), in source order, first failure wins;
`none` means the payload passes validation. -/
def customerRegisterValidate (b : RegisterBody) : Option AppError :=
  let matchedPwd := regexPwdMatch (jsOptStr b.password)
  let matchedDoB := regexDateMatch (jsOptStr b.dateOfBirth)
  let matchedIdentNum := regexIdentMatch (jsOptStr b.identityNumber)
  let matchedRegDate := regexDateMatch (jsOptStr b.registrationDate)
  if !matchedPwd then some weakPasswordError
  else if !matchedDoB then some badDateOfBirthError
  else if strFalsy b.identityNumber || strFalsy b.registrationDate ||
          b.frontImage.isNone || b.backImage.isNone then
    some incompleteIdentityError
  else if !matchedIdentNum then some badIdentityNumberError
  else if !matchedRegDate then some badRegistrationDateError
  else none

/-! ## Token Service -/

/-- Modelled from the spec: the token produced by the `jsonwebtoken` library
(an external dependency, not under `src/`): a signed claim
`{type, id}` with an expiry (spec section 4.2 and Data Model `Token`).
`sigOk` records whether the signature verifies against the process secret. -/
structure Token where
  typ : List Char
  id : Nat
  exp : Nat
  sigOk : Bool
deriving DecidableEq, Repr

inductive TokenError where
  | Malformed
  | Expired
deriving DecidableEq, Repr

/-- Modelled from the spec: `jwt.verify` of the `jsonwebtoken` library, not
under `src/`. Spec section 4.2: fails with `TokenError::Malformed` (cannot
parse/verify signature) or `TokenError::Expired` (past expiry), and spec
section 8: for all tokens past their expiry, verification always fails with
Expired, regardless of signature validity. -/
def tokenVerify (now : Nat) (t : Token) : Except TokenError (List Char × Nat) :=
  if t.exp ≤ now then .error .Expired
  else if !t.sigOk then .error .Malformed
  else .ok (t.typ, t.id)

/-- `signToken(type, id)`: `jwt.sign({type, id}, secret, {expiresIn})`. -/
def signToken (typ : List Char) (id : Nat) (now lifetime : Nat) : Token :=
  { typ := typ, id := id, exp := now + lifetime, sigOk := true }

/-! ## Store records -/

structure CustomerRec where
  id : Nat
  username : List Char
  email : List Char
  password : List Char
  name : Option (List Char)
  dateOfBirth : Option (List Char)
  phoneNumber : Option (List Char)
  address : Option (List Char)
  verifyCode : List Char
  status : STATUS
deriving DecidableEq, Repr

structure RoleRec where
  roleDescription : List Char
deriving DecidableEq, Repr

/-- A staff row; `role` is the `Role` row reachable through `roleId`
(`include: { model: Role }` joins it). -/
structure StaffRec where
  id : Nat
  username : List Char
  password : List Char
  name : List Char
  status : STATUS
  role : Option RoleRec
deriving DecidableEq, Repr

structure IdentityRec where
  customerId : Nat
  identityNumber : List Char
  registrationDate : List Char
  frontImage : List Nat
  backImage : List Nat
deriving DecidableEq, Repr

/-- The backing relational store. -/
structure DB where
  customers : List CustomerRec
  staffs : List StaffRec
  identities : List IdentityRec
deriving DecidableEq, Repr

/-- JS `String.prototype.trim` whitespace (the cases relevant here). -/
def isJsSpace (c : Char) : Bool := c == ' ' || c == '\t' || c == '\n' || c == '\r'

def jsTrim (s : List Char) : List Char :=
  ((s.dropWhile isJsSpace).reverse.dropWhile isJsSpace).reverse

def jsToLower (s : List Char) : List Char := s.map Char.toLower

/-- Modelled from the spec: unexpected thrown errors (a failed store call)
propagate through the global error handler, not under `src/`, as a
500-equivalent response (spec sections 6 and 7). -/
def internalError : AppError := ⟨"Something went very wrong!".toList, 500⟩

/-- The persistence tail of `customerRegister` (`auth.controller.js` lines
223–249) after validation passed: `Customer.create` appends the customer row,
then `Identity.create` appends the identity row. `identityCreateOk = false`
models `Identity.create` throwing (a store failure); there is no transaction
in the source, so the already-created customer row stays in the store.
New accounts start `active` (spec section 4.6: initial status; the sequelize
model default is not under `src/`). -/
def customerRegister (hash : List Char → List Char) (verifyCode : List Char)
    (now lifetime newId : Nat) (identityCreateOk : Bool)
    (db : DB) (b : RegisterBody) : DB × Except AppError (Nat × Token) :=
  match customerRegisterValidate b with
  | some e => (db, .error e)
  | none =>
    match b.username, b.email with
    | some u, some e =>
      let c : CustomerRec :=
        { id := newId,
          username := jsToLower (jsTrim u),
          email := jsToLower (jsTrim e),
          password := hash (jsOptStr b.password),
          name := b.name, dateOfBirth := b.dateOfBirth,
          phoneNumber := b.phoneNumber, address := b.address,
          verifyCode := verifyCode,
          status := STATUS.active }
      let db1 := { db with customers := db.customers ++ [c] }
      if identityCreateOk then
        let ident : IdentityRec :=
          { customerId := newId,
            identityNumber := jsOptStr b.identityNumber,
            registrationDate := jsOptStr b.registrationDate,
            frontImage := b.frontImage.getD [],
            backImage := b.backImage.getD [] }
        ({ db1 with identities := db1.identities ++ [ident] },
         .ok (201, signToken "customer".toList newId now lifetime))
      else (db1, .error internalError)
    | _, _ => (db, .error internalError)

/-! ## Access Gate: `authorize` and `restrictTo` -/

def notLoggedInError : AppError :=
  ⟨"You are not logged in! Please log in to get access.".toList, 401⟩

def userGoneError : AppError :=
  ⟨"The user belonging to this token does no longer exists.".toList, 401⟩

def inactiveError : AppError := ⟨"Your account is inactive!".toList, 403⟩

def blockedError : AppError := ⟨"Your account is blocked!".toList, 403⟩

def forbiddenError : AppError :=
  ⟨"You do not have permission to perform this action.".toList, 403⟩

/-- Modelled from the spec: token verification failures are surfaced by the
global error handler (not under `src/`) as 401-equivalent
`AuthError::InvalidToken` responses (spec section 4.4 step 2). -/
def tokenErrorResponse : TokenError → AppError
  | .Expired => ⟨"jwt expired".toList, 401⟩
  | .Malformed => ⟨"invalid signature".toList, 401⟩

/-- A principal loaded by `authorize`: a customer row, or a staff row with
its eagerly-loaded role. -/
inductive Principal where
  | customer (c : CustomerRec)
  | staff (s : StaffRec)
deriving DecidableEq, Repr

def Principal.status : Principal → STATUS
  | .customer c => c.status
  | .staff s => s.status

def Principal.role : Principal → Option RoleRec
  | .customer _ => none
  | .staff s => s.role

/-- The `Authorization` header: either absent, `Bearer <token>`, or present
but not of the `Bearer ` shape. Token strings are opaque; a well-formed
bearer header carries the decoded token. -/
inductive AuthHeader where
  | bearer (t : Token)
  | notBearer
deriving DecidableEq, Repr

structure Request where
  authorization : Option AuthHeader
deriving DecidableEq, Repr

/-- The `switch (decoded.type)` lookup of `authorize`: dispatch by principal
type to the matching store `findOne`; an unknown type leaves the user `null`. -/
def findPrincipal (db : DB) (typ : List Char) (id : Nat) : Option Principal :=
  if typ = "customer".toList then
    (db.customers.find? (fun c => c.id == id)).map .customer
  else if typ = "staff".toList then
    (db.staffs.find? (fun s => s.id == id)).map .staff
  else none

/-- `authorize` (`auth.controller.js` lines 65–120): bearer-header check,
token verification, principal lookup (absent and `deleted` are
indistinguishable), then the status gate. -/
def authorize (now : Nat) (db : DB) (req : Request) : Except AppError Principal :=
  match req.authorization with
  | some (.bearer t) =>
    match tokenVerify now t with
    | .error e => .error (tokenErrorResponse e)
    | .ok (typ, id) =>
      match findPrincipal db typ id with
      | none => .error userGoneError
      | some u =>
        if u.status = .deleted then .error userGoneError
        else
          match u.status with
          | .inactive => .error inactiveError
          | .blocked => .error blockedError
          | _ => .ok u
  | _ => .error notLoggedInError

/-- `restrictTo(...roles)` (`auth.controller.js` lines 123–132): rejects when
the principal has no role or its `roleDescription` is outside the set. -/
def restrictTo (roles : List (List Char)) (u : Principal) : Except AppError Principal :=
  match u.role with
  | none => .error forbiddenError
  | some r => if roles.contains r.roleDescription then .ok u else .error forbiddenError

/-- The middleware chain `authorize` then `restrictTo(roles)`, as mounted in
`staff.routes.js`. -/
def accessGate (now : Nat) (db : DB) (roles : List (List Char)) (req : Request) :
    Except AppError Principal :=
  (authorize now db req).bind (restrictTo roles)

/-! ## Login flows -/

def provideCredentialsError : AppError :=
  ⟨"Please provide username/email and password!".toList, 400⟩

def incorrectLoginError : AppError :=
  ⟨"Incorrect username/email or password".toList, 401⟩

structure LoginBody where
  username : Option (List Char)
  password : Option (List Char)
deriving DecidableEq, Repr

/-- The customer lookup of `customerLogin`: `username` matches the username
or the email column, and `status != deleted`. -/
def customerLoginFind (db : DB) (username : List Char) : Option CustomerRec :=
  db.customers.find? (fun c =>
    (c.username == username || c.email == username) && !(c.status == STATUS.deleted))

/-- `customerLogin` (`auth.controller.js` lines 134–166); `verifyHashed` is
the Credential Verifier's `verifyHashedPassword` (its module is not under
`src/`, so it is a parameter). On success: HTTP 200 and a fresh signed token. -/
def customerLogin (verifyHashed : List Char → List Char → Bool)
    (now lifetime : Nat) (db : DB) (b : LoginBody) : Except AppError (Nat × Token) :=
  if strFalsy b.username || strFalsy b.password then .error provideCredentialsError
  else
    match customerLoginFind db (jsOptStr b.username) with
    | none => .error incorrectLoginError
    | some c =>
      if verifyHashed (jsOptStr b.password) c.password then
        .ok (200, signToken "customer".toList c.id now lifetime)
      else .error incorrectLoginError

/-- The staff lookup of `staffLogin`: username column only, `status != deleted`. -/
def staffLoginFind (db : DB) (username : List Char) : Option StaffRec :=
  db.staffs.find? (fun s =>
    s.username == username && !(s.status == STATUS.deleted))

/-- `staffLogin` (`auth.controller.js` lines 252–284). -/
def staffLogin (verifyHashed : List Char → List Char → Bool)
    (now lifetime : Nat) (db : DB) (b : LoginBody) : Except AppError (Nat × Token) :=
  if strFalsy b.username || strFalsy b.password then .error provideCredentialsError
  else
    match staffLoginFind db (jsOptStr b.username) with
    | none => .error incorrectLoginError
    | some s =>
      if verifyHashed (jsOptStr b.password) s.password then
        .ok (200, signToken "staff".toList s.id now lifetime)
      else .error incorrectLoginError

/-! ## Admin controller: staff management -/

/-- Modelled from the spec: `ROLE.admin` of `src/api/utils/enums/roleEnum.js`,
not under `src/`; the spec fixes the role labels `{staff, admin}` (Data Model
`Role`). -/
def adminRole : List Char := "admin".toList

def statusInvalidError : AppError := ⟨"Status is not valid!".toList, 400⟩

def cantFindStaffError : AppError := ⟨"Can\x27t find that staff!".toList, 404⟩

/-- The `excludeAdmin` include of `admin.controller.js` (lines 12–17): an
inner join on `Role` with `roleDescription != admin`, so a staff row joins
exactly when it has a role and that role is not `admin`. -/
def excludeAdmin (s : StaffRec) : Bool :=
  match s.role with
  | none => false
  | some r => !(r.roleDescription == adminRole)

/-- `findStaff` (`admin.controller.js` lines 19–38): by id, non-admin join,
`status != deleted`. -/
def findStaff (db : DB) (id : Nat) : Option StaffRec :=
  db.staffs.find? (fun s =>
    excludeAdmin s && s.id == id && !(s.status == STATUS.deleted))

/-- `getStaff` (`admin.controller.js` lines 115–126). -/
def getStaff (db : DB) (id : Nat) : Except AppError StaffRec :=
  match findStaff db id with
  | none => .error cantFindStaffError
  | some s => .ok s

/-- Insertion of one element into a sorted list, for the `order` clause. -/
def insertSorted (le : α → α → Bool) (a : α) : List α → List α
  | [] => [a]
  | b :: bs => if le a b then a :: b :: bs else b :: insertSorted le a bs

/-- Stable sort, modelling sequelize's `order: [[sortBy, sortType]]`. -/
def sortByList (le : α → α → Bool) : List α → List α
  | [] => []
  | a :: as => insertSorted le a (sortByList le as)

/-- The `where` predicate of `getAllStaffs` (`admin.controller.js` lines
61–79): the non-admin join, `status != deleted`, and the `LIKE` filters built
from the query string (abstracted as the list `filters`, since the claims do
not depend on their shape). -/
def getAllStaffsWhere (filters : List (StaffRec → Bool)) (s : StaffRec) : Bool :=
  excludeAdmin s && !(s.status == STATUS.deleted) && filters.all (fun f => f s)

/-- The rows returned by `getAllStaffs`: filter, order, then paginate with
`offset = (page - 1) * limit` and `limit`. -/
def getAllStaffsRows (db : DB) (filters : List (StaffRec → Bool))
    (le : StaffRec → StaffRec → Bool) (page limit : Nat) : List StaffRec :=
  ((sortByList le (db.staffs.filter (getAllStaffsWhere filters))).drop
    ((page - 1) * limit)).take limit

/-- `updateStaffStatus` (`admin.controller.js` lines 128–154): validate the
status value via the `STATUS` lookup, find the target through the non-admin
join (no deleted filter here), then `staff.save()` persists the new status on
the row with that primary key. Returns the store after the call and the
response. -/
def updateStaffStatus (db : DB) (idStaff : Nat) (status : List Char) :
    DB × Except AppError StaffRec :=
  match STATUS.lookup status with
  | none => (db, .error statusInvalidError)
  | some newStatus =>
    match db.staffs.find? (fun s => excludeAdmin s && s.id == idStaff) with
    | none => (db, .error cantFindStaffError)
    | some st =>
      ({ db with staffs := db.staffs.map (fun s =>
          if s.id == idStaff then { s with status := newStatus } else s) },
       .ok { st with status := newStatus })

/-! ## Helper lemmas -/

theorem mem_insertSorted {α : Type} (le : α → α → Bool) (a x : α) (l : List α)
    (h : x ∈ insertSorted le a l) : x = a ∨ x ∈ l := by
  induction l with
  | nil =>
    simp only [insertSorted, List.mem_singleton] at h
    exact Or.inl h
  | cons b bs ih =>
    simp only [insertSorted] at h
    by_cases hle : le a b = true
    · rw [if_pos hle] at h
      simp only [List.mem_cons] at h
      rcases h with h | h | h
      · exact Or.inl h
      · exact Or.inr (by simp [h])
      · exact Or.inr (by simp [h])
    · rw [if_neg hle] at h
      simp only [List.mem_cons] at h
      rcases h with h | h
      · exact Or.inr (by simp [h])
      · rcases ih h with h | h
        · exact Or.inl h
        · exact Or.inr (by simp [h])

theorem mem_sortByList {α : Type} (le : α → α → Bool) (x : α) (l : List α)
    (h : x ∈ sortByList le l) : x ∈ l := by
  induction l with
  | nil => simp [sortByList] at h
  | cons b bs ih =>
    rcases mem_insertSorted le b x _ h with h2 | h2
    · simp [h2]
    · exact List.mem_cons_of_mem _ (ih h2)

/-! ## Claims -/

/-- Claim C2: the structural validations of `customerRegister` are applied in
exactly this order, the first failure determining the reported error:
password strength, date-of-birth format, presence of identity number /
registration date / both images, identity-number shape, registration-date
format; a payload violating several rules reports the earliest step's error,
and a payload passing all five steps passes validation. -/
theorem registerValidationOrder (b : RegisterBody) :
    (regexPwdMatch (jsOptStr b.password) = false →
      customerRegisterValidate b = some weakPasswordError) ∧
    (regexPwdMatch (jsOptStr b.password) = true →
      regexDateMatch (jsOptStr b.dateOfBirth) = false →
      customerRegisterValidate b = some badDateOfBirthError) ∧
    (regexPwdMatch (jsOptStr b.password) = true →
      regexDateMatch (jsOptStr b.dateOfBirth) = true →
      (strFalsy b.identityNumber || strFalsy b.registrationDate ||
        b.frontImage.isNone || b.backImage.isNone) = true →
      customerRegisterValidate b = some incompleteIdentityError) ∧
    (regexPwdMatch (jsOptStr b.password) = true →
      regexDateMatch (jsOptStr b.dateOfBirth) = true →
      (strFalsy b.identityNumber || strFalsy b.registrationDate ||
        b.frontImage.isNone || b.backImage.isNone) = false →
      regexIdentMatch (jsOptStr b.identityNumber) = false →
      customerRegisterValidate b = some badIdentityNumberError) ∧
    (regexPwdMatch (jsOptStr b.password) = true →
      regexDateMatch (jsOptStr b.dateOfBirth) = true →
      (strFalsy b.identityNumber || strFalsy b.registrationDate ||
        b.frontImage.isNone || b.backImage.isNone) = false →
      regexIdentMatch (jsOptStr b.identityNumber) = true →
      regexDateMatch (jsOptStr b.registrationDate) = false →
      customerRegisterValidate b = some badRegistrationDateError) ∧
    (regexPwdMatch (jsOptStr b.password) = true →
      regexDateMatch (jsOptStr b.dateOfBirth) = true →
      (strFalsy b.identityNumber || strFalsy b.registrationDate ||
        b.frontImage.isNone || b.backImage.isNone) = false →
      regexIdentMatch (jsOptStr b.identityNumber) = true →
      regexDateMatch (jsOptStr b.registrationDate) = true →
      customerRegisterValidate b = none) := by
  refine ⟨?_, ?_, ?_, ?_, ?_, ?_⟩ <;>
    intros <;>
    simp_all [customerRegisterValidate, Option.isSome_iff_ne_none,
      Option.isNone_iff_eq_none]

/-- Claim C2 witness: a payload that violates the password rule, the
identity-number rule and the image-presence rule at once reports the error of
the earliest step, `WeakPassword`. -/
theorem registerValidationOrder_witness :
    regexPwdMatch (jsOptStr (some "alllowercase1!".toList)) = false ∧
    customerRegisterValidate
      { email := some "a@b.c".toList, username := some "alice".toList,
        password := some "alllowercase1!".toList, name := some "Alice".toList,
        dateOfBirth := some "1999-01-01".toList, phoneNumber := none,
        address := none, identityNumber := some "12345".toList,
        registrationDate := some "2015-01-01".toList,
        frontImage := none, backImage := none } = some weakPasswordError :=
  ⟨by decide,
   (registerValidationOrder
      { email := some "a@b.c".toList, username := some "alice".toList,
        password := some "alllowercase1!".toList, name := some "Alice".toList,
        dateOfBirth := some "1999-01-01".toList, phoneNumber := none,
        address := none, identityNumber := some "12345".toList,
        registrationDate := some "2015-01-01".toList,
        frontImage := none, backImage := none }).1 (by decide)⟩

/-- Claim C4: for every token whose expiry timestamp is in the past, token
verification fails with `Expired`, regardless of whether the signature is
valid (the signature flag of the token is unconstrained). -/
theorem tokenVerifyExpiredFirst (now : Nat) (t : Token) (h : t.exp < now) :
    tokenVerify now t = .error .Expired := by
  unfold tokenVerify
  rw [if_pos (Nat.le_of_lt h)]

/-- Claim C4 witness: a token expired at 5, checked at 10, with a corrupted
signature, still reports `Expired`. -/
theorem tokenVerifyExpiredFirst_witness :
    (5 : Nat) < 10 ∧
    tokenVerify 10 { typ := "customer".toList, id := 1, exp := 5, sigOk := false } =
      .error .Expired :=
  ⟨by decide,
   tokenVerifyExpiredFirst 10
     { typ := "customer".toList, id := 1, exp := 5, sigOk := false } (by decide)⟩

theorem isEmpty_false_of_ne_nil {l : List Char} (h : l ≠ []) : l.isEmpty = false := by
  cases l with
  | nil => exact absurd rfl h
  | cons a as => rfl

/-- Claim C7: a login where no principal matches the username/email and a
login where the principal exists but the password does not verify produce
identical responses: the same generic message with status 401, for both the
customer and the staff flow. -/
theorem loginFailureIndistinguishable :
    (∀ (v v2 : List Char → List Char → Bool) (now lt now2 lt2 : Nat) (db db2 : DB)
       (u p u2 p2 : List Char) (c : CustomerRec),
       u ≠ [] → p ≠ [] → u2 ≠ [] → p2 ≠ [] →
       customerLoginFind db u = none →
       customerLoginFind db2 u2 = some c → v2 p2 c.password = false →
       customerLogin v now lt db ⟨some u, some p⟩ = .error incorrectLoginError ∧
       customerLogin v2 now2 lt2 db2 ⟨some u2, some p2⟩ = .error incorrectLoginError ∧
       customerLogin v now lt db ⟨some u, some p⟩ =
         customerLogin v2 now2 lt2 db2 ⟨some u2, some p2⟩ ∧
       incorrectLoginError.statusCode = 401) ∧
    (∀ (v v2 : List Char → List Char → Bool) (now lt now2 lt2 : Nat) (db db2 : DB)
       (u p u2 p2 : List Char) (s : StaffRec),
       u ≠ [] → p ≠ [] → u2 ≠ [] → p2 ≠ [] →
       staffLoginFind db u = none →
       staffLoginFind db2 u2 = some s → v2 p2 s.password = false →
       staffLogin v now lt db ⟨some u, some p⟩ = .error incorrectLoginError ∧
       staffLogin v2 now2 lt2 db2 ⟨some u2, some p2⟩ = .error incorrectLoginError ∧
       staffLogin v now lt db ⟨some u, some p⟩ =
         staffLogin v2 now2 lt2 db2 ⟨some u2, some p2⟩ ∧
       incorrectLoginError.statusCode = 401) := by
  constructor
  · intro v v2 now lt now2 lt2 db db2 u p u2 p2 c hu hp hu2 hp2 hf hf2 hv
    have r1 : customerLogin v now lt db ⟨some u, some p⟩ = .error incorrectLoginError := by
      simp [customerLogin, strFalsy, jsOptStr, hf,
        isEmpty_false_of_ne_nil hu, isEmpty_false_of_ne_nil hp]
    have r2 : customerLogin v2 now2 lt2 db2 ⟨some u2, some p2⟩ =
        .error incorrectLoginError := by
      simp [customerLogin, strFalsy, jsOptStr, hf2, hv,
        isEmpty_false_of_ne_nil hu2, isEmpty_false_of_ne_nil hp2]
    exact ⟨r1, r2, by rw [r1, r2], rfl⟩
  · intro v v2 now lt now2 lt2 db db2 u p u2 p2 s hu hp hu2 hp2 hf hf2 hv
    have r1 : staffLogin v now lt db ⟨some u, some p⟩ = .error incorrectLoginError := by
      simp [staffLogin, strFalsy, jsOptStr, hf,
        isEmpty_false_of_ne_nil hu, isEmpty_false_of_ne_nil hp]
    have r2 : staffLogin v2 now2 lt2 db2 ⟨some u2, some p2⟩ =
        .error incorrectLoginError := by
      simp [staffLogin, strFalsy, jsOptStr, hf2, hv,
        isEmpty_false_of_ne_nil hu2, isEmpty_false_of_ne_nil hp2]
    exact ⟨r1, r2, by rw [r1, r2], rfl⟩

/-- Claim C7 witness: against a one-customer store, a wrong-username attempt
and a wrong-password attempt both yield the generic 401 error. -/
theorem loginFailureIndistinguishable_witness :
    customerLogin (fun p h => p == h) 0 3600
      { customers := [{ id := 1, username := "alice".toList, email := "a@b.c".toList,
                        password := "Correct1!".toList, name := none, dateOfBirth := none,
                        phoneNumber := none, address := none, verifyCode := [],
                        status := STATUS.active }], staffs := [], identities := [] }
      ⟨some "bob".toList, some "Wr0ng!pass".toList⟩ = .error incorrectLoginError ∧
    customerLogin (fun p h => p == h) 0 3600
      { customers := [{ id := 1, username := "alice".toList, email := "a@b.c".toList,
                        password := "Correct1!".toList, name := none, dateOfBirth := none,
                        phoneNumber := none, address := none, verifyCode := [],
                        status := STATUS.active }], staffs := [], identities := [] }
      ⟨some "alice".toList, some "Wr0ng!pass".toList⟩ = .error incorrectLoginError := by
  have h := (loginFailureIndistinguishable.1
    (fun p h => p == h) (fun p h => p == h) 0 3600 0 3600
    { customers := [{ id := 1, username := "alice".toList, email := "a@b.c".toList,
                      password := "Correct1!".toList, name := none, dateOfBirth := none,
                      phoneNumber := none, address := none, verifyCode := [],
                      status := STATUS.active }], staffs := [], identities := [] }
    { customers := [{ id := 1, username := "alice".toList, email := "a@b.c".toList,
                      password := "Correct1!".toList, name := none, dateOfBirth := none,
                      phoneNumber := none, address := none, verifyCode := [],
                      status := STATUS.active }], staffs := [], identities := [] }
    "bob".toList "Wr0ng!pass".toList "alice".toList "Wr0ng!pass".toList
    { id := 1, username := "alice".toList, email := "a@b.c".toList,
      password := "Correct1!".toList, name := none, dateOfBirth := none,
      phoneNumber := none, address := none, verifyCode := [],
      status := STATUS.active }
    (by decide) (by decide) (by decide) (by decide) (by decide) (by decide) (by decide))
  exact ⟨h.1, h.2.1⟩

/-- Claim C10: a blocked or inactive (non-deleted) principal whose password
verifies logs in with 200 and a signed token, for both flows; the status is
enforced only later, by `authorize`, which rejects that token's bearer with
the matching 403 error. -/
theorem loginAllowsBlockedAndInactive :
    (∀ (v : List Char → List Char → Bool) (now lt : Nat) (db : DB)
       (u p : List Char) (c : CustomerRec),
       u ≠ [] → p ≠ [] →
       customerLoginFind db u = some c →
       (c.status = .blocked ∨ c.status = .inactive) →
       v p c.password = true →
       customerLogin v now lt db ⟨some u, some p⟩ =
         .ok (200, signToken "customer".toList c.id now lt)) ∧
    (∀ (v : List Char → List Char → Bool) (now lt : Nat) (db : DB)
       (u p : List Char) (s : StaffRec),
       u ≠ [] → p ≠ [] →
       staffLoginFind db u = some s →
       (s.status = .blocked ∨ s.status = .inactive) →
       v p s.password = true →
       staffLogin v now lt db ⟨some u, some p⟩ =
         .ok (200, signToken "staff".toList s.id now lt)) ∧
    (∀ (now lt now2 : Nat) (db : DB) (c : CustomerRec),
       now2 < now + lt →
       db.customers.find? (fun x => x.id == c.id) = some c →
       (c.status = .blocked →
         authorize now2 db ⟨some (.bearer (signToken "customer".toList c.id now lt))⟩ =
           .error blockedError) ∧
       (c.status = .inactive →
         authorize now2 db ⟨some (.bearer (signToken "customer".toList c.id now lt))⟩ =
           .error inactiveError)) ∧
    (∀ (now lt now2 : Nat) (db : DB) (s : StaffRec),
       now2 < now + lt →
       db.staffs.find? (fun x => x.id == s.id) = some s →
       (s.status = .blocked →
         authorize now2 db ⟨some (.bearer (signToken "staff".toList s.id now lt))⟩ =
           .error blockedError) ∧
       (s.status = .inactive →
         authorize now2 db ⟨some (.bearer (signToken "staff".toList s.id now lt))⟩ =
           .error inactiveError)) := by
  refine ⟨?_, ?_, ?_, ?_⟩
  · intro v now lt db u p c hu hp hf _ hv
    simp [customerLogin, strFalsy, jsOptStr, hf, hv,
      isEmpty_false_of_ne_nil hu, isEmpty_false_of_ne_nil hp]
  · intro v now lt db u p s hu hp hf _ hv
    simp [staffLogin, strFalsy, jsOptStr, hf, hv,
      isEmpty_false_of_ne_nil hu, isEmpty_false_of_ne_nil hp]
  · intro now lt now2 db c hlt hf
    constructor <;> intro hs <;>
      simp [authorize, tokenVerify, signToken, findPrincipal, hf, hs,
        Principal.status, Nat.not_le.mpr hlt]
  · intro now lt now2 db s hlt hf
    constructor <;> intro hs <;>
      simp [authorize, tokenVerify, signToken, findPrincipal, hf, hs,
        Principal.status, Nat.not_le.mpr hlt]

/-- A concrete blocked customer used to witness claim C10. -/
def blockedCustomer : CustomerRec :=
  { id := 1, username := "alice".toList, email := "a@b.c".toList,
    password := "Correct1!".toList, name := none, dateOfBirth := none,
    phoneNumber := none, address := none, verifyCode := [],
    status := STATUS.blocked }

def blockedDB : DB := { customers := [blockedCustomer], staffs := [], identities := [] }

/-- Claim C10 witness: the blocked customer logs in successfully with the
correct password, and the very token issued by that login is then rejected by
the Access Gate with the blocked error. -/
theorem loginAllowsBlockedAndInactive_witness :
    customerLogin (fun p h => p == h) 0 3600 blockedDB
      ⟨some "alice".toList, some "Correct1!".toList⟩ =
      .ok (200, signToken "customer".toList blockedCustomer.id 0 3600) ∧
    authorize 10 blockedDB
      ⟨some (.bearer (signToken "customer".toList blockedCustomer.id 0 3600))⟩ =
      .error blockedError := by
  constructor
  · exact loginAllowsBlockedAndInactive.1 (fun p h => p == h) 0 3600 blockedDB
      "alice".toList "Correct1!".toList blockedCustomer (by decide) (by decide)
      (by decide) (Or.inl (by decide)) (by decide)
  · exact (loginAllowsBlockedAndInactive.2.2.1 0 3600 10 blockedDB blockedCustomer
      (by decide) (by decide)).1 (by decide)

/-- Claim C1: the Access Gate evaluates its checks in a fixed order, stopping
at the first failure: missing or non-Bearer header → 401 missing-credential;
then token-verification failure → 401; then a nonexistent principal, or one
whose status is deleted (indistinguishable), → the same 401 gone error; then
inactive → 403 inactive and blocked → 403 blocked; only then the role-set
membership check → 403 Forbidden. Every conjunct holds for arbitrary
later-stage data (arbitrary `roles`, arbitrary store), so a blocked staff
principal is rejected with the blocked error before any role check, and a
deleted principal gets 401, never 403. -/
theorem accessGateOrder (now : Nat) (db : DB) (roles : List (List Char)) :
    (∀ req : Request,
       (req.authorization = none ∨ req.authorization = some .notBearer) →
       accessGate now db roles req = .error notLoggedInError) ∧
    (∀ (t : Token) (e : TokenError), tokenVerify now t = .error e →
       accessGate now db roles ⟨some (.bearer t)⟩ = .error (tokenErrorResponse e) ∧
       (tokenErrorResponse e).statusCode = 401) ∧
    (∀ (t : Token) (typ : List Char) (id : Nat), tokenVerify now t = .ok (typ, id) →
       (findPrincipal db typ id = none →
          accessGate now db roles ⟨some (.bearer t)⟩ = .error userGoneError) ∧
       (∀ u : Principal, findPrincipal db typ id = some u →
          (u.status = .deleted →
            accessGate now db roles ⟨some (.bearer t)⟩ = .error userGoneError) ∧
          (u.status = .inactive →
            accessGate now db roles ⟨some (.bearer t)⟩ = .error inactiveError) ∧
          (u.status = .blocked →
            accessGate now db roles ⟨some (.bearer t)⟩ = .error blockedError) ∧
          (u.status = .active → u.role = none →
            accessGate now db roles ⟨some (.bearer t)⟩ = .error forbiddenError) ∧
          (∀ r : RoleRec, u.status = .active → u.role = some r →
            roles.contains r.roleDescription = false →
            accessGate now db roles ⟨some (.bearer t)⟩ = .error forbiddenError) ∧
          (∀ r : RoleRec, u.status = .active → u.role = some r →
            roles.contains r.roleDescription = true →
            accessGate now db roles ⟨some (.bearer t)⟩ = .ok u))) ∧
    (notLoggedInError.statusCode = 401 ∧ userGoneError.statusCode = 401 ∧
     inactiveError.statusCode = 403 ∧ blockedError.statusCode = 403 ∧
     forbiddenError.statusCode = 403) := by
  refine ⟨?_, ?_, ?_, by decide⟩
  · intro req h
    rcases h with h | h <;> simp [accessGate, authorize, h, Except.bind]
  · intro t e h
    refine ⟨by simp [accessGate, authorize, h, Except.bind], ?_⟩
    cases e <;> rfl
  · intro t typ id h
    constructor
    · intro hfp
      simp [accessGate, authorize, h, hfp, Except.bind]
    · intro u hfp
      refine ⟨?_, ?_, ?_, ?_, ?_, ?_⟩
      · intro hs
        simp [accessGate, authorize, h, hfp, hs, Except.bind]
      · intro hs
        simp [accessGate, authorize, h, hfp, hs, Except.bind]
      · intro hs
        simp [accessGate, authorize, h, hfp, hs, Except.bind]
      · intro hs hr
        simp [accessGate, authorize, h, hfp, hs, restrictTo, hr, Except.bind]
      · intro r hs hr hroles
        simp [accessGate, authorize, h, hfp, hs, restrictTo, hr, Except.bind]
        simpa using hroles
      · intro r hs hr hroles
        simp [accessGate, authorize, h, hfp, hs, restrictTo, hr, Except.bind]
        simpa using hroles

/-- A concrete blocked staff member with role `staff`, witnessing claim C1. -/
def blockedStaff : StaffRec :=
  { id := 7, username := "stan".toList, password := "h".toList,
    name := "Stan".toList, status := STATUS.blocked,
    role := some { roleDescription := "staff".toList } }

def blockedStaffDB : DB := { customers := [], staffs := [blockedStaff], identities := [] }

/-- Claim C1 witness: a blocked staff principal presenting a valid unexpired
token to a route restricted to `{admin}` is rejected with the blocked 403
error, produced before the role check (its role `staff` is outside the set);
and a token with an unknown principal gets the 401 gone error. -/
theorem accessGateOrder_witness :
    accessGate 0 blockedStaffDB [adminRole]
      ⟨some (.bearer { typ := "staff".toList, id := 7, exp := 100, sigOk := true })⟩ =
      .error blockedError ∧
    accessGate 0 blockedStaffDB [adminRole]
      ⟨some (.bearer { typ := "staff".toList, id := 9, exp := 100, sigOk := true })⟩ =
      .error userGoneError := by
  constructor
  · exact ((((accessGateOrder 0 blockedStaffDB [adminRole]).2.2.1
      { typ := "staff".toList, id := 7, exp := 100, sigOk := true }
      "staff".toList 7 (by rfl)).2 (.staff blockedStaff) (by decide)).2.2.1 (by decide))
  · exact (((accessGateOrder 0 blockedStaffDB [adminRole]).2.2.1
      { typ := "staff".toList, id := 9, exp := 100, sigOk := true }
      "staff".toList 9 (by rfl)).1 (by decide))

/-- The five password conditions exactly as claim C5 states them: length at
least 8, at least one digit, one uppercase letter, one lowercase letter, and
one symbol from the fixed punctuation set. -/
def pwdSpecConditions (s : List Char) : Prop :=
  8 ≤ s.length ∧ (∃ c ∈ s, c.isDigit = true) ∧ (∃ c ∈ s, c.isUpper = true) ∧
  (∃ c ∈ s, c.isLower = true) ∧ (∃ c ∈ s, isPwdSymbol c = true)

/-- Claim C5 counterexample: the eight-character password `Aa1!aaa.` meets
all five stated conditions, yet the password regex rejects it (so a full
registration payload carrying it fails with `WeakPassword`): the regex
additionally restricts every character to word characters and the punctuation
set, and the dot is outside that alphabet. The final conjunct records the
`m`-flag line semantics: a CR-terminated qualifying segment makes the whole
value match. -/
theorem pwdAlphabetCounterexample :
    pwdSpecConditions "Aa1!aaa.".toList ∧
    regexPwdMatch "Aa1!aaaa\rx".toList = true ∧
    regexPwdMatch "Aa1!aaa.".toList = false ∧
    customerRegisterValidate
      { email := some "a@b.c".toList, username := some "alice".toList,
        password := some "Aa1!aaa.".toList, name := some "Alice".toList,
        dateOfBirth := some "1999-01-01".toList, phoneNumber := none,
        address := none, identityNumber := some "123456789".toList,
        registrationDate := some "2015-01-01".toList,
        frontImage := some [1], backImage := some [2] } =
      some weakPasswordError := by
  refine ⟨?_, by decide, by decide, by decide⟩
  refine ⟨by decide, ⟨'1', by decide⟩, ⟨'A', by decide⟩, ⟨'a', by decide⟩,
    ⟨'!', by decide⟩⟩

/-- Claim C5 amended: the password step accepts a string exactly when some
line of it — lines delimited by the JS line terminators LF, CR, U+2028,
U+2029, since the regex carries the `m` flag; a terminator-free password is
its own sole line — has length at least 8, contains at least one digit, one
uppercase letter, one lowercase letter, and one symbol of `!@#$%^&*`, and
consists solely of word characters (ASCII letters, digits, underscore) and
those symbols. -/
theorem regexPwdMatchCharacterization (s : List Char) :
    regexPwdMatch s = true ↔
    ∃ l ∈ jsLines s,
      8 ≤ l.length ∧ (∃ c ∈ l, c.isDigit = true) ∧ (∃ c ∈ l, c.isUpper = true) ∧
      (∃ c ∈ l, c.isLower = true) ∧ (∃ c ∈ l, isPwdSymbol c = true) ∧
      ∀ c ∈ l, isWordChar c = true ∨ isPwdSymbol c = true := by
  simp only [regexPwdMatch, List.any_eq_true, linePwdOk, Bool.and_eq_true,
    List.all_eq_true, Bool.or_eq_true, decide_eq_true_eq]
  constructor
  · rintro ⟨l, hl, ⟨⟨⟨⟨hd, hu⟩, hlo⟩, hsym⟩, hall⟩, hlen⟩
    exact ⟨l, hl, hlen, hd, hu, hlo, hsym, hall⟩
  · rintro ⟨l, hl, hlen, hd, hu, hlo, hsym, hall⟩
    exact ⟨l, hl, ⟨⟨⟨⟨hd, hu⟩, hlo⟩, hsym⟩, hall⟩, hlen⟩

/-- One line in one of the two complete date formats exactly as claim C8
states them: `YYYY-MM-DD` or `YYYY/MM/DD`, the separators agreeing. -/
def lineDateSpecOk (l : List Char) : Bool :=
  match l with
  | [y1, y2, y3, y4, s1, m1, m2, s2, d1, d2] =>
    y1.isDigit && y2.isDigit && y3.isDigit && y4.isDigit &&
    m1.isDigit && m2.isDigit && d1.isDigit && d2.isDigit &&
    ((s1 == '-' && s2 == '-') || (s1 == '/' && s2 == '/'))
  | _ => false

/-- Claim C8 counterexample: `1999-01/01` mixes the two separators, so it
matches neither complete stated format, yet the code's date regex accepts it
(each `[/\x2d]` class is independent), and a registration payload carrying it
as date of birth passes validation outright. The second conjunct records the
`m`-flag line semantics: a CR-terminated qualifying segment makes the whole
value match. -/
theorem dateMixedSeparatorsAccepted :
    regexDateMatch "1999-01/01".toList = true ∧
    regexDateMatch "1999-01-01\rx".toList = true ∧
    lineDateSpecOk "1999-01/01".toList = false ∧
    customerRegisterValidate
      { email := some "a@b.c".toList, username := some "alice".toList,
        password := some "G00d!pass".toList, name := some "Alice".toList,
        dateOfBirth := some "1999-01/01".toList, phoneNumber := none,
        address := none, identityNumber := some "123456789".toList,
        registrationDate := some "2015-01-01".toList,
        frontImage := some [1], backImage := some [2] } = none := by
  refine ⟨by decide, by decide, by decide, by decide⟩

theorem lineDateOk_iff (l : List Char) :
    lineDateOk l = true ↔
    ∃ y1 y2 y3 y4 s1 m1 m2 s2 d1 d2 : Char,
      l = [y1, y2, y3, y4, s1, m1, m2, s2, d1, d2] ∧
      y1.isDigit = true ∧ y2.isDigit = true ∧ y3.isDigit = true ∧
      y4.isDigit = true ∧ m1.isDigit = true ∧ m2.isDigit = true ∧
      d1.isDigit = true ∧ d2.isDigit = true ∧
      (s1 = '/' ∨ s1 = '-') ∧ (s2 = '/' ∨ s2 = '-') := by
  constructor
  · intro h
    unfold lineDateOk at h
    split at h
    · rename_i y1 y2 y3 y4 s1 m1 m2 s2 d1 d2
      simp only [Bool.and_eq_true, isDateSep, Bool.or_eq_true, beq_iff_eq] at h
      obtain ⟨⟨⟨⟨⟨⟨⟨⟨⟨h1, h2⟩, h3⟩, h4⟩, hs1⟩, h5⟩, h6⟩, hs2⟩, h7⟩, h8⟩ := h
      exact ⟨y1, y2, y3, y4, s1, m1, m2, s2, d1, d2, rfl,
        h1, h2, h3, h4, h5, h6, h7, h8, hs1, hs2⟩
    · exact absurd h (by decide)
  · rintro ⟨y1, y2, y3, y4, s1, m1, m2, s2, d1, d2, rfl,
      h1, h2, h3, h4, h5, h6, h7, h8, hs1, hs2⟩
    rcases hs1 with rfl | rfl <;> rcases hs2 with rfl | rfl <;>
      simp [lineDateOk, isDateSep, h1, h2, h3, h4, h5, h6, h7, h8]

/-- Claim C8 amended: a date value (date of birth or registration date) is
accepted exactly when some line of it — lines delimited by the JS line
terminators LF, CR, U+2028, U+2029, since the regex carries the `m` flag —
is four digits, a separator, two digits, a separator, two digits, where each
separator is independently `-` or `/` — so the two all-one-separator formats
are accepted, but so is a value mixing the two separators. -/
theorem regexDateMatchCharacterization (s : List Char) :
    regexDateMatch s = true ↔
    ∃ l ∈ jsLines s,
      ∃ y1 y2 y3 y4 s1 m1 m2 s2 d1 d2 : Char,
        l = [y1, y2, y3, y4, s1, m1, m2, s2, d1, d2] ∧
        y1.isDigit = true ∧ y2.isDigit = true ∧ y3.isDigit = true ∧
        y4.isDigit = true ∧ m1.isDigit = true ∧ m2.isDigit = true ∧
        d1.isDigit = true ∧ d2.isDigit = true ∧
        (s1 = '/' ∨ s1 = '-') ∧ (s2 = '/' ∨ s2 = '-') := by
  simp only [regexDateMatch, List.any_eq_true]
  constructor
  · rintro ⟨l, hl, h⟩
    exact ⟨l, hl, (lineDateOk_iff l).1 h⟩
  · rintro ⟨l, hl, h⟩
    exact ⟨l, hl, (lineDateOk_iff l).2 h⟩

/-- A fully valid registration payload, used to exhibit the missing
transaction around the customer/identity creation pair (claim C3). -/
def validRegisterBody : RegisterBody :=
  { email := some "a@b.c".toList, username := some "alice".toList,
    password := some "G00d!pass".toList, name := some "Alice".toList,
    dateOfBirth := some "1999-01-01".toList, phoneNumber := none,
    address := none, identityNumber := some "123456789".toList,
    registrationDate := some "2015-01-01".toList,
    frontImage := some [1], backImage := some [2] }

/-- Claim C3: the source wraps `Customer.create` and `Identity.create` in no
transaction, so when the identity creation fails after the customer creation
succeeded (`identityCreateOk = false`), the run errors but the freshly
created customer row remains with no paired identity row — an orphan,
contradicting the both-or-neither requirement. Evaluated at the failing
input: a valid payload against an empty store with the identity insert
failing. -/
theorem registerNotAtomicOrphan :
    (customerRegister (fun s => s) "vc".toList 0 3600 1 false
        { customers := [], staffs := [], identities := [] } validRegisterBody).1.customers ≠
      [] ∧
    (customerRegister (fun s => s) "vc".toList 0 3600 1 false
        { customers := [], staffs := [], identities := [] } validRegisterBody).1.identities =
      [] ∧
    (customerRegister (fun s => s) "vc".toList 0 3600 1 false
        { customers := [], staffs := [], identities := [] } validRegisterBody).2 =
      .error internalError := by
  refine ⟨by decide, by decide, by rfl⟩

/-- Claim C6: `updateStaffStatus` rejects any status value outside the closed
set with the 400 validation error before any mutation, the store unchanged;
for a value inside the set and an existing non-admin target, the response is
success and every stored staff row with the target id carries exactly the new
status afterwards. -/
theorem updateStaffStatusClosedSet (db : DB) (idStaff : Nat) (status : List Char) :
    (STATUS.lookup status = none →
      updateStaffStatus db idStaff status = (db, .error statusInvalidError) ∧
      statusInvalidError.statusCode = 400) ∧
    (∀ v : STATUS, STATUS.lookup status = some v →
      ∀ st : StaffRec,
        db.staffs.find? (fun s => excludeAdmin s && s.id == idStaff) = some st →
        (updateStaffStatus db idStaff status).2 = .ok { st with status := v } ∧
        ∀ s2 ∈ (updateStaffStatus db idStaff status).1.staffs,
          s2.id = idStaff → s2.status = v) := by
  constructor
  · intro h
    exact ⟨by simp [updateStaffStatus, h], rfl⟩
  · intro v hv st hst
    refine ⟨by simp [updateStaffStatus, hv, hst], ?_⟩
    intro s2 hmem hid
    simp only [updateStaffStatus, hv, hst, List.mem_map] at hmem
    obtain ⟨s, hs, rfl⟩ := hmem
    by_cases hb : (s.id == idStaff) = true
    · simp [hb]
    · rw [if_neg hb] at hid ⊢
      exact absurd (beq_iff_eq.mpr hid) hb

/-- A concrete two-staff store witnessing claim C6. -/
def staffBob : StaffRec :=
  { id := 2, username := "bob".toList, password := "h".toList,
    name := "Bob".toList, status := STATUS.active,
    role := some { roleDescription := "staff".toList } }

def staffDB : DB := { customers := [], staffs := [staffBob], identities := [] }

/-- Claim C6 witness: the out-of-set value `frozen` is rejected with 400 and
the store is untouched; the in-set value `blocked` is stored exactly. -/
theorem updateStaffStatusClosedSet_witness :
    (updateStaffStatus staffDB 2 "frozen".toList =
      (staffDB, .error statusInvalidError)) ∧
    ((updateStaffStatus staffDB 2 "blocked".toList).2 =
      .ok { staffBob with status := STATUS.blocked } ∧
     ∀ s2 ∈ (updateStaffStatus staffDB 2 "blocked".toList).1.staffs,
       s2.id = 2 → s2.status = STATUS.blocked) := by
  constructor
  · exact ((updateStaffStatusClosedSet staffDB 2 "frozen".toList).1 (by decide)).1
  · exact (updateStaffStatusClosedSet staffDB 2 "blocked".toList).2
      STATUS.blocked (by decide) staffBob (by decide)

/-- Claim C9: staff-management treats an admin-roled staff record as
nonexistent: it never appears among the rows `getAllStaffs` returns (for any
filters, sort order and pagination); and when the admin record is the only
row with its id, `getStaff` answers the 404 not-found error and
`updateStaffStatus` answers an error (404 not-found, or 400 for a bad status
value) leaving the store unchanged either way. -/
theorem adminStaffInvisible :
    (∀ (db : DB) (filters : List (StaffRec → Bool)) (le : StaffRec → StaffRec → Bool)
       (page limit : Nat) (s : StaffRec),
       s ∈ getAllStaffsRows db filters le page limit →
       s.role ≠ some { roleDescription := adminRole }) ∧
    (∀ (db : DB) (a : StaffRec), a.role = some { roleDescription := adminRole } →
       (∀ s ∈ db.staffs, s.id = a.id → s = a) →
       getStaff db a.id = .error cantFindStaffError ∧
       cantFindStaffError.statusCode = 404 ∧
       ∀ (status : List Char) (v : STATUS), STATUS.lookup status = some v →
         updateStaffStatus db a.id status = (db, .error cantFindStaffError)) := by
  constructor
  · intro db filters le page limit s hmem hrole
    have h1 : s ∈ (sortByList le (db.staffs.filter (getAllStaffsWhere filters))).drop
        ((page - 1) * limit) := List.take_subset _ _ hmem
    have h2 : s ∈ sortByList le (db.staffs.filter (getAllStaffsWhere filters)) :=
      List.drop_subset _ _ h1
    have h3 : s ∈ db.staffs.filter (getAllStaffsWhere filters) :=
      mem_sortByList le s _ h2
    have h4 : getAllStaffsWhere filters s = true := List.of_mem_filter h3
    simp only [getAllStaffsWhere, Bool.and_eq_true] at h4
    have h5 : excludeAdmin s = true := h4.1.1
    rw [excludeAdmin, hrole] at h5
    simp at h5
  · intro db a hrole hkey
    have hnone : ∀ p : StaffRec → Bool,
        (∀ s : StaffRec, p s = true → excludeAdmin s = true ∧ s.id = a.id) →
        db.staffs.find? p = none := by
      intro p hp
      rw [List.find?_eq_none]
      intro x hx hpx
      obtain ⟨hex, hid⟩ := hp x hpx
      have hxa : x = a := hkey x hx hid
      rw [hxa, excludeAdmin, hrole] at hex
      simp at hex
    have hfind : db.staffs.find?
        (fun s => excludeAdmin s && s.id == a.id && !(s.status == STATUS.deleted)) =
        none := by
      apply hnone
      intro s hs
      simp only [Bool.and_eq_true, beq_iff_eq] at hs
      exact ⟨hs.1.1, hs.1.2⟩
    have hfind2 : db.staffs.find? (fun s => excludeAdmin s && s.id == a.id) = none := by
      apply hnone
      intro s hs
      simp only [Bool.and_eq_true, beq_iff_eq] at hs
      exact hs
    refine ⟨by simp [getStaff, findStaff, hfind], rfl, ?_⟩
    intro status v hl
    simp [updateStaffStatus, hl, hfind2]

/-- A concrete admin staff member witnessing claim C9. -/
def adminAlice : StaffRec :=
  { id := 5, username := "root".toList, password := "h".toList,
    name := "Alice".toList, status := STATUS.active,
    role := some { roleDescription := "admin".toList } }

def adminDB : DB := { customers := [], staffs := [adminAlice], identities := [] }

/-- Claim C9 witness: against a store holding only the admin record,
`getStaff` on the admin id answers the 404 error, and a valid
`updateStaffStatus` on the admin id also answers an error with the store
unchanged. -/
theorem adminStaffInvisible_witness :
    getStaff adminDB 5 = .error cantFindStaffError ∧
    updateStaffStatus adminDB 5 "blocked".toList =
      (adminDB, .error cantFindStaffError) := by
  have h := adminStaffInvisible.2 adminDB adminAlice (by decide)
    (by intro s hs hid
        simp only [adminDB, List.mem_singleton] at hs
        exact hs)
  exact ⟨h.1, h.2.2 "blocked".toList STATUS.blocked (by decide)⟩

end Bank
